import Mathlib

/-!
Verification of the pricing-fetcher core against its specification.

The definitions below are a shallow embedding of the Python source:
scheduler and quarantine from scrape_prices.py, alert classification and
cooldown from alerts.py, the trade simulator and aggregator from backtest.py.
Timestamps are rationals (an abstract linear time line); prices, percentages
and thresholds are rationals; symbols are natural numbers.
-/

namespace PricingFetcher

/-! ## Rotation and quarantine scheduler (scrape_prices.py) -/

/-- Embedding of get_rotation_offset: slot = hour*4 + minute//15, offset =
(slot * SYMBOLS_PER_RUN) % 50000. -/
def get_rotation_offset (hour minute symbolsPerRun : Nat) : Nat :=
  ((hour * 4 + minute / 15) * symbolsPerRun) % 50000

/-- Embedding of the stock_symbols row (models.StockSymbol): the symbol key and
its quarantined_until timestamp (none = never quarantined). -/
structure StockSymbol where
  symbol : Nat
  quarantined_until : Option ℚ
deriving DecidableEq, Repr

/-- The filter of get_active_symbols: quarantined_until is null OR
quarantined_until < now. -/
def is_active (now : ℚ) (s : StockSymbol) : Bool :=
  match s.quarantined_until with
  | none => true
  | some t => decide (t < now)

/-- Embedding of get_active_symbols: the universe filtered to active rows,
order preserved. -/
def get_active_symbols (univ : List StockSymbol) (now : ℚ) : List StockSymbol :=
  univ.filter (is_active now)

/-- Embedding of the slice selection in fetch_stock_prices: offset =
rotation offset % max(total_active, 1), then offset/limit on the active
list (drop then take, no wraparound). -/
def select_slice {α : Type} (active : List α) (symbolsPerRun rotOffset : Nat) : List α :=
  (active.drop (rotOffset % max active.length 1)).take symbolsPerRun

/-- Embedding of quarantine_symbols: if the failed list is non-empty, every
universe row whose symbol is among the first 50 failed symbols gets
quarantined_until = now + QUARANTINE_DAYS; other rows are unchanged. -/
def quarantine_symbols (failed : List Nat) (now qdays : ℚ)
    (univ : List StockSymbol) : List StockSymbol :=
  if failed.isEmpty then univ
  else
    univ.map fun s =>
      if (failed.take 50).contains s.symbol then
        { s with quarantined_until := some (now + qdays) }
      else s

/-- Embedding of fetch_batch_fast: the quote source returns an optional close
price per symbol; a symbol with a positive close goes to the data list, every
other symbol goes to the failed list (a per-symbol failure is recorded, it
does not abort the batch). -/
def fetch_batch_fast (quote : Nat → Option ℚ) (symbols : List Nat) :
    List (Nat × ℚ) × List Nat :=
  (symbols.filterMap fun s =>
      match quote s with
      | some c => if 0 < c then some (s, c) else none
      | none => none,
   symbols.filter fun s =>
      match quote s with
      | some c => decide (c ≤ 0)
      | none => true)

/-! ## Alert detection engine (alerts.py) -/

/-- The four alert kinds of check_price_alerts. -/
inductive AlertType
  | volume_spike_up
  | volume_spike_down
  | extreme_up
  | extreme_down
deriving DecidableEq, Repr

/-- Embedding of the classification block of check_price_alerts:
is_significant_move = |pc| >= threshold, is_volume_spike = volume_ratio is
set, non-zero and >= VOLUME_MULTIPLIER, is_extreme_move = |pc| >= 15;
volume-confirmed signals win over extreme moves, otherwise no alert. -/
def classify_move (percent_change : ℚ) (volume_ratio : Option ℚ)
    (threshold volume_multiplier : ℚ) : Option AlertType :=
  let is_significant_move := decide (|percent_change| ≥ threshold)
  let is_volume_spike :=
    match volume_ratio with
    | none => false
    | some r => decide (r ≠ 0) && decide (r ≥ volume_multiplier)
  let is_extreme_move := decide (|percent_change| ≥ 15)
  if is_significant_move && is_volume_spike then
    some (if 0 < percent_change then .volume_spike_up else .volume_spike_down)
  else if is_extreme_move then
    some (if 0 < percent_change then .extreme_up else .extreme_down)
  else
    none

/-- Spec-side helper (from the spec text of section 4.2): volume confirmation
holds when a volume ratio is present and at least the volume multiplier. -/
def volume_confirmed (volume_ratio : Option ℚ) (volume_multiplier : ℚ) : Bool :=
  match volume_ratio with
  | none => false
  | some r => decide (r ≥ volume_multiplier)

/-- Spec-side classification cascade, written from the spec words of
section 4.2: volume-confirmed signal first, extreme-move fallback second,
otherwise no alert. Used to compare the code's classify_move against the
spec. -/
def spec_classify (percent_change : ℚ) (volume_ratio : Option ℚ)
    (threshold volume_multiplier : ℚ) : Option AlertType :=
  if |percent_change| ≥ threshold ∧ volume_confirmed volume_ratio volume_multiplier then
    some (if 0 < percent_change then .volume_spike_up else .volume_spike_down)
  else if |percent_change| ≥ 15 then
    some (if 0 < percent_change then .extreme_up else .extreme_down)
  else
    none

/-- Embedding of an alert_history row (the fields the cooldown and the
event-creation logic read). -/
structure AlertEvent where
  symbol : Nat
  alert_type : AlertType
  sent_at : ℚ
deriving DecidableEq, Repr

/-- Embedding of the cooldown query of check_price_alerts: the symbols of all
alert_history rows with sent_at > cooldown_time. -/
def cooldown_symbols (history : List AlertEvent) (cooldown_time : ℚ) : List Nat :=
  (history.filter fun h => decide (cooldown_time < h.sent_at)).map (·.symbol)

/-- Embedding of one symbol's path through check_price_alerts: classification,
then the cooldown gate, then the send; an alert_history row is added exactly
when the notification send succeeds. Returns (emitted, new history). -/
def process_symbol (history : List AlertEvent) (sym : Nat) (percent_change : ℚ)
    (volume_ratio : Option ℚ) (threshold volume_multiplier : ℚ)
    (now cooldown_hours : ℚ) (send_ok : Bool) : Bool × List AlertEvent :=
  match classify_move percent_change volume_ratio threshold volume_multiplier with
  | none => (false, history)
  | some t =>
    if (cooldown_symbols history (now - cooldown_hours)).contains sym then
      (false, history)
    else if send_ok then
      (true, ⟨sym, t, now⟩ :: history)
    else
      (false, history)

/-! ## Trade outcome simulator (backtest.py) -/

/-- TAKE_PROFIT_PCT constant of backtest.py. -/
def TAKE_PROFIT_PCT : ℚ := 3

/-- STOP_LOSS_PCT constant of backtest.py. -/
def STOP_LOSS_PCT : ℚ := -3

/-- TRAILING_STOP_TRIGGER constant of backtest.py. -/
def TRAILING_STOP_TRIGGER : ℚ := 3

/-- MAX_HOLD_HOURS constant of backtest.py. -/
def MAX_HOLD_HOURS : Nat := 24

/-- The trailing gap hardcoded as 2.0 in simulate_trade (new_stop =
max_gain - 2.0). -/
def TRAILING_GAP : ℚ := 2

/-- One 5-minute intrabar sample of the historical path. -/
structure Sample where
  high : ℚ
  low : ℚ
  close : ℚ
deriving DecidableEq, Repr

/-- The exit reasons of simulate_trade. -/
inductive ExitReason
  | take_profit
  | stop_loss
  | trailing_stop
  | timeout
  | end_of_data
deriving DecidableEq, Repr

/-- The dictionary simulate_trade returns. -/
structure TradeResult where
  result : ℚ
  exit_reason : ExitReason
  max_gain : ℚ
  max_drawdown : ℚ
  hold_minutes : Nat
deriving DecidableEq, Repr

/-- Signed percent gain at the sample's favorable extreme (high for long,
low for short), as computed in simulate_trade. -/
def gain_high (entry : ℚ) (is_long : Bool) (s : Sample) : ℚ :=
  if is_long then (s.high - entry) / entry * 100 else (entry - s.low) / entry * 100

/-- Signed percent gain at the sample's adverse extreme (low for long, high
for short), as computed in simulate_trade. -/
def gain_low (entry : ℚ) (is_long : Bool) (s : Sample) : ℚ :=
  if is_long then (s.low - entry) / entry * 100 else (entry - s.high) / entry * 100

/-- Signed percent gain at the sample's close, as computed in
simulate_trade. -/
def gain_close (entry : ℚ) (is_long : Bool) (s : Sample) : ℚ :=
  if is_long then (s.close - entry) / entry * 100 else (entry - s.close) / entry * 100

/-- Embedding of the per-sample loop of simulate_trade. Arguments after
entry/is_long: sample index i, max_gain, max_drawdown, trailing_stop_active,
trailing_stop_level, the close of the previous sample (stands for
hist.Close.iloc[-1] once the path is exhausted), remaining samples. -/
def simulate_go (entry : ℚ) (is_long : Bool) :
    Nat → ℚ → ℚ → Bool → ℚ → ℚ → List Sample → TradeResult
  | i, max_gain, max_drawdown, _, _, last_close, [] =>
    let final_gain :=
      if is_long then (last_close - entry) / entry * 100
      else -((last_close - entry) / entry * 100)
    ⟨final_gain, .end_of_data, max_gain, max_drawdown, i * 5⟩
  | i, max_gain, max_drawdown, trailing_stop_active, trailing_stop_level, _, s :: rest =>
    let current_gain_high := gain_high entry is_long s
    let current_gain_low := gain_low entry is_long s
    let current_gain := gain_close entry is_long s
    let max_gain1 := max max_gain current_gain_high
    let max_drawdown1 := min max_drawdown current_gain_low
    let activate := decide (max_gain1 ≥ TRAILING_STOP_TRIGGER) && !trailing_stop_active
    let active1 := trailing_stop_active || activate
    let level0 := if activate then (0 : ℚ) else trailing_stop_level
    let level1 := if active1 then max level0 (max_gain1 - TRAILING_GAP) else level0
    if current_gain_high ≥ TAKE_PROFIT_PCT then
      ⟨TAKE_PROFIT_PCT, .take_profit, max_gain1, max_drawdown1, (i + 1) * 5⟩
    else if current_gain_low ≤ STOP_LOSS_PCT then
      ⟨STOP_LOSS_PCT, .stop_loss, max_gain1, max_drawdown1, (i + 1) * 5⟩
    else if active1 && decide (current_gain_low ≤ level1) then
      ⟨level1, .trailing_stop, max_gain1, max_drawdown1, (i + 1) * 5⟩
    else if (i + 1) * 5 ≥ MAX_HOLD_HOURS * 60 then
      ⟨current_gain, .timeout, max_gain1, max_drawdown1, (i + 1) * 5⟩
    else
      simulate_go entry is_long (i + 1) max_gain1 max_drawdown1 active1 level1 s.close rest

/-- Embedding of simulate_trade on an explicit intrabar path: None on an
empty path (no usable history), otherwise the walk starting from max_gain =
max_drawdown = 0, trailing inactive, trailing level = STOP_LOSS_PCT. -/
def simulate_trade (entry_price : ℚ) (is_long : Bool) (path : List Sample) :
    Option TradeResult :=
  if path.isEmpty then none
  else some (simulate_go entry_price is_long 0 0 0 false STOP_LOSS_PCT entry_price path)

/-- Spec-side simulator state (section 4.3 of the spec). -/
structure SimState where
  max_gain : ℚ
  max_drawdown : ℚ
  trailing_active : Bool
  trailing_level : ℚ
deriving DecidableEq, Repr

/-- Spec-side per-sample state update, written from the spec words of
section 4.3: extremes ratchet max_gain/max_drawdown, trailing activates once
max_gain reaches the trigger (resetting the level to 0 first), and while
active the level ratchets up to max_gain minus the gap. -/
def spec_update_state (st : SimState) (gain_at_high gain_at_low : ℚ) : SimState :=
  let mg := max st.max_gain gain_at_high
  let md := min st.max_drawdown gain_at_low
  if mg ≥ TRAILING_STOP_TRIGGER ∧ st.trailing_active = false then
    ⟨mg, md, true, max 0 (mg - TRAILING_GAP)⟩
  else if st.trailing_active then
    ⟨mg, md, true, max st.trailing_level (mg - TRAILING_GAP)⟩
  else
    ⟨mg, md, false, st.trailing_level⟩

/-- Spec-side ordered exit rule list, written from the spec words of section
4.3: take-profit, then stop-loss, then trailing-stop, then timeout; first
true rule wins, no rule means keep holding. -/
def spec_exit_check (gain_at_high gain_at_low gain_at_close : ℚ)
    (trailing_active : Bool) (trailing_level : ℚ) (elapsed_minutes : Nat) :
    Option (ℚ × ExitReason) :=
  if gain_at_high ≥ TAKE_PROFIT_PCT then some (TAKE_PROFIT_PCT, .take_profit)
  else if gain_at_low ≤ STOP_LOSS_PCT then some (STOP_LOSS_PCT, .stop_loss)
  else if trailing_active = true ∧ gain_at_low ≤ trailing_level then
    some (trailing_level, .trailing_stop)
  else if elapsed_minutes ≥ MAX_HOLD_HOURS * 60 then
    some (gain_at_close, .timeout)
  else none

/-! ## Settlement creation and aggregation (backtest.py) -/

/-- Embedding of an alert_outcomes row (the fields the idempotence logic
reads). -/
structure AlertOutcome where
  alert_id : Nat
  symbol : Nat
deriving DecidableEq, Repr

/-- Embedding of create_outcome_from_alert: an existence check by alert_id
guards the insert; an already-tracked alert is a no-op. -/
def create_outcome_from_alert (outcomes : List AlertOutcome)
    (alertId sym : Nat) : List AlertOutcome :=
  if outcomes.any fun o => o.alert_id == alertId then outcomes
  else outcomes ++ [⟨alertId, sym⟩]

/-- Embedding of the mean of calc_stats (generate_report): sum over length,
0 on an empty list. -/
def calc_mean (xs : List ℚ) : ℚ :=
  if xs = [] then 0 else xs.sum / xs.length

/-- Embedding of the median of calc_stats: sort, then index length // 2;
0 on an empty list. -/
def calc_median (xs : List ℚ) : ℚ :=
  let sorted := xs.mergeSort fun a b => decide (a ≤ b)
  if sorted = [] then 0 else sorted.getD (sorted.length / 2) 0

/-- Embedding of the win rate of calc_stats: count of strictly positive
results over length, times 100; 0 on an empty list. -/
def calc_win_rate (xs : List ℚ) : ℚ :=
  if xs = [] then 0
  else ((xs.filter fun p => decide (0 < p)).length : ℚ) / xs.length * 100

/-! ## Theorems -/

/-- Claim C1, counterexample: with 4 active symbols, slice size 3 and the
rotation offset of the 00:15 slot (offset 3), the slice selection returns a
single symbol, fewer than min(sliceSize, activeCount) = 3 — the window does
not wrap around to the start of the active list. -/
theorem slice_wraparound_counterexample :
    (select_slice [0, 1, 2, 3] 3 (get_rotation_offset 0 15 3)).length = 1 ∧
      1 < min 3 ([0, 1, 2, 3] : List Nat).length := by
  decide

/-- Claim C1, amended: the slice is the active symbols in the window
starting at offset mod activeCount, truncated at the end of the active list
with no wraparound; it holds exactly min(sliceSize, activeCount - offset)
symbols, element i of the slice being active symbol offset + i. -/
theorem slice_selection_no_wraparound :
    ∀ (α : Type) (active : List α) (n r : Nat),
    (select_slice active n r).length =
      min n (active.length - r % max active.length 1) ∧
    ∀ i : Nat, i < n →
      (select_slice active n r)[i]? = active[r % max active.length 1 + i]? := by
  intro α active n r
  refine ⟨by simp [select_slice], ?_⟩
  intro i hi
  simp [select_slice, List.getElem?_take_of_lt hi, List.getElem?_drop]

/-- Witness for the amended claim C1 at active = [0,1,2,3], slice size 3,
raw offset 3. -/
theorem slice_selection_no_wraparound_witness :
    (select_slice [0, 1, 2, 3] 3 3)[0]? = some (3 : Nat) :=
  (slice_selection_no_wraparound Nat [0, 1, 2, 3] 3 3).2 0 (by norm_num)

/-- Claim C9: a symbol is in the scheduler's active list exactly when it is
in the universe and it is not the case that its quarantined_until timestamp
is set and not earlier than now (so once quarantined_until < now the symbol
is eligible again, with no reset step); and every slice is drawn from the
active list. -/
theorem quarantine_exclusion_spec :
    ∀ (univ : List StockSymbol) (now : ℚ) (s : StockSymbol),
    (s ∈ get_active_symbols univ now ↔
      s ∈ univ ∧ ¬∃ t, s.quarantined_until = some t ∧ now ≤ t) ∧
    ∀ (n r : Nat), s ∈ select_slice (get_active_symbols univ now) n r →
      s ∈ get_active_symbols univ now := by
  intro univ now s
  constructor
  · rw [get_active_symbols, List.mem_filter]
    cases h : s.quarantined_until with
    | none => simp [is_active, h]
    | some t => simp [is_active, h, not_le]
  · intro n r hmem
    exact List.mem_of_mem_drop (List.mem_of_mem_take hmem)

/-- Witness for claim C9: an unquarantined symbol reached through a slice is
in the active list. -/
theorem quarantine_exclusion_spec_witness :
    (⟨0, none⟩ : StockSymbol) ∈ get_active_symbols [⟨0, none⟩] 0 :=
  (quarantine_exclusion_spec [⟨0, none⟩] 0 ⟨0, none⟩).2 1 0 (by decide)

/-- Claim C2, counterexample: with 51 failed symbols, the 51st failed symbol
(symbol 50) is not placed in quarantine — quarantine_symbols only processes
the first 50 failed symbols of a run. -/
theorem quarantine_cap_counterexample :
    (50 ∈ List.range 51) ∧
      quarantine_symbols (List.range 51) 0 7 [⟨50, none⟩] = [⟨50, none⟩] := by
  decide

/-- Claim C2, amended: each of the first 50 failed symbols of a run is placed
in quarantine with quarantined_until = now + the quarantine duration; failed
symbols beyond the first 50 are left unchanged; and each symbol of a fetch
batch lands either in the price data (positive quote) or in the failed list —
a per-symbol fetch failure is recorded rather than aborting the run. -/
theorem quarantine_first_fifty :
    ∀ (failed : List Nat) (now qdays : ℚ) (univ : List StockSymbol) (i : Nat),
    ((quarantine_symbols failed now qdays univ)[i]? =
      univ[i]?.map fun s =>
        if (failed.take 50).contains s.symbol then ⟨s.symbol, some (now + qdays)⟩
        else s) ∧
    ∀ (quote : Nat → Option ℚ) (symbols : List Nat) (s : Nat), s ∈ symbols →
      (∃ c, quote s = some c ∧ 0 < c ∧ (s, c) ∈ (fetch_batch_fast quote symbols).1) ∨
        s ∈ (fetch_batch_fast quote symbols).2 := by
  intro failed now qdays univ i
  constructor
  · by_cases hf : failed.isEmpty
    · rw [List.isEmpty_iff.mp hf]
      cases h : univ[i]? <;> simp [quarantine_symbols, h]
    · cases h : univ[i]? <;> simp [quarantine_symbols, hf, h]
  · intro quote symbols s hs
    cases hq : quote s with
    | none =>
      right
      simp [fetch_batch_fast, List.mem_filter, hs, hq]
    | some c =>
      by_cases hc : 0 < c
      · refine Or.inl ⟨c, rfl, hc, ?_⟩
        rw [fetch_batch_fast]
        simp only [List.mem_filterMap]
        exact ⟨s, hs, by simp [hq, hc]⟩
      · right
        simp [fetch_batch_fast, List.mem_filter, hs, hq, not_lt.mp hc]

/-- Witness for the amended claim C2: a symbol whose quote is absent lands in
the failed list. -/
theorem quarantine_first_fifty_witness :
    (∃ c, (fun _ : Nat => (none : Option ℚ)) 5 = some c ∧ 0 < c ∧
        (5, c) ∈ (fetch_batch_fast (fun _ => none) [5]).1) ∨
      5 ∈ (fetch_batch_fast (fun _ : Nat => (none : Option ℚ)) [5]).2 :=
  (quarantine_first_fifty [] 0 0 [] 0).2 (fun _ => none) [5] 5 (by decide)

/-- Claim C4: for a volume ratio that is either absent or positive (as
computed by check_price_alerts), the code's classification agrees with the
spec's priority cascade: volume-confirmed spike first, extreme-move fallback
second, otherwise no alert; a 16% move with no volume data is extreme_up,
and a move below both thresholds yields no event. -/
theorem classification_cascade_spec :
    ∀ (pc : ℚ) (vr : Option ℚ) (th vm : ℚ),
    (vr = none ∨ ∃ r0, vr = some r0 ∧ 0 < r0) →
    (classify_move pc vr th vm = spec_classify pc vr th vm ∧
      classify_move 16 none th vm = some .extreme_up ∧
      (|pc| < th → |pc| < 15 → classify_move pc vr th vm = none)) := by
  intro pc vr th vm hvr
  refine ⟨?_, ?_, ?_⟩
  · rcases hvr with h | ⟨r0, h, hr0⟩ <;> subst h <;>
      simp [classify_move, spec_classify, volume_confirmed, ne_of_gt, *]
  · have h16 : |(16 : ℚ)| ≥ 15 := by norm_num
    simp [classify_move, h16]
    norm_num
  · intro h1 h2
    have n1 : ¬(|pc| ≥ th) := not_le.mpr h1
    have n2 : ¬(|pc| ≥ 15) := not_le.mpr h2
    simp [classify_move, n1, n2]

/-- Witness for claim C4: a 1% move with no volume data and default
thresholds yields no alert. -/
theorem classification_cascade_spec_witness :
    classify_move 1 none 3 2 = none :=
  (classification_cascade_spec 1 none 3 2 (Or.inl rfl)).2.2 (by norm_num)
    (by norm_num)

/-- Claim C5: a symbol in the cooldown set is suppressed regardless of its
classification, and after a pass that emitted an AlertEvent, a second pass
for the same symbol within the cooldown window emits nothing and leaves the
history unchanged. -/
theorem cooldown_suppression_spec :
    ∀ (history : List AlertEvent) (sym : Nat) (pc : ℚ) (vr : Option ℚ)
      (th vm now ch : ℚ) (ok : Bool),
    ((cooldown_symbols history (now - ch)).contains sym = true →
      process_symbol history sym pc vr th vm now ch ok = (false, history)) ∧
    ∀ (pc2 : ℚ) (vr2 : Option ℚ) (th2 vm2 now2 : ℚ) (ok2 : Bool)
      (h1 : List AlertEvent),
      process_symbol history sym pc vr th vm now ch ok = (true, h1) →
      now2 - ch < now →
      process_symbol h1 sym pc2 vr2 th2 vm2 now2 ch ok2 = (false, h1) := by
  intro history sym pc vr th vm now ch ok
  constructor
  · intro hc
    unfold process_symbol
    split
    · rfl
    · rw [if_pos hc]
  · intro pc2 vr2 th2 vm2 now2 ok2 h1 hemit hwin
    unfold process_symbol at hemit
    split at hemit
    · simp at hemit
    · split at hemit
      · simp at hemit
      · split at hemit
        · rename_i t hcl hcool hok
          have hh1 : h1 = ⟨sym, t, now⟩ :: history :=
            (congrArg Prod.snd hemit).symm
          subst hh1
          have hmem : (cooldown_symbols (⟨sym, t, now⟩ :: history) (now2 - ch)).contains
              sym = true := by
            simp [cooldown_symbols, List.filter_cons, hwin]
          unfold process_symbol
          split
          · rfl
          · rw [if_pos hmem]
        · simp at hemit

/-- Witness for claim C5: a first pass at time 10 emits for symbol 0; a
second pass at time 12 with a 4-hour cooldown is suppressed. -/
theorem cooldown_suppression_spec_witness :
    process_symbol [⟨0, .extreme_up, 10⟩] 0 16 none 3 2 12 4 true =
      (false, [⟨0, .extreme_up, 10⟩]) :=
  (cooldown_suppression_spec [] 0 16 none 3 2 10 4 true).2 16 none 3 2 12 true
    [⟨0, .extreme_up, 10⟩] (by decide) (by norm_num)

/-- Claim C6: for a classified symbol that is not in cooldown, an AlertEvent
row is created exactly when the notification send succeeds; on a failed send
the history is unchanged, so the symbol is not placed into cooldown and can
be re-attempted on the next pass. -/
theorem alert_record_iff_send_success :
    ∀ (history : List AlertEvent) (sym : Nat) (pc : ℚ) (vr : Option ℚ)
      (th vm now ch : ℚ) (ok : Bool) (t : AlertType),
    classify_move pc vr th vm = some t →
    (cooldown_symbols history (now - ch)).contains sym = false →
    process_symbol history sym pc vr th vm now ch ok =
      if ok then (true, ⟨sym, t, now⟩ :: history) else (false, history) := by
  intro history sym pc vr th vm now ch ok t hcl hcool
  unfold process_symbol
  split
  · next hnone => rw [hcl] at hnone; cases hnone
  · next t2 hsome =>
    rw [hcl] at hsome
    cases hsome
    rw [if_neg (by rw [hcool]; simp)]

/-- Witness for claim C6: a failed send creates no AlertEvent row. -/
theorem alert_record_iff_send_success_witness :
    process_symbol [] 0 16 none 3 2 10 4 false = (false, []) :=
  alert_record_iff_send_success [] 0 16 none 3 2 10 4 false .extreme_up
    (by decide) (by decide)

/-- Helper: create_outcome_from_alert is a no-op on a state that already
tracks the alert id. -/
theorem create_outcome_noop (outcomes : List AlertOutcome) (alertId s2 : Nat)
    (h : (outcomes.any fun o => o.alert_id == alertId) = true) :
    create_outcome_from_alert outcomes alertId s2 = outcomes := by
  unfold create_outcome_from_alert
  rw [if_pos h]

/-- Helper: after create_outcome_from_alert, the state tracks the alert
id. -/
theorem create_outcome_tracks (outcomes : List AlertOutcome) (alertId s1 : Nat) :
    ((create_outcome_from_alert outcomes alertId s1).any
      fun o => o.alert_id == alertId) = true := by
  unfold create_outcome_from_alert
  split
  · assumption
  · simp [List.any_append]

/-- Claim C8: settlement creation is idempotent per alert id — a second
invocation with the same alert id is a no-op, and starting from a state with
no settlement for the alert id, two invocations leave exactly one record
with that alert id. -/
theorem settlement_idempotent :
    ∀ (outcomes : List AlertOutcome) (alertId s1 s2 : Nat),
    create_outcome_from_alert (create_outcome_from_alert outcomes alertId s1)
        alertId s2 =
      create_outcome_from_alert outcomes alertId s1 ∧
    ((outcomes.countP fun o => o.alert_id == alertId) = 0 →
      ((create_outcome_from_alert (create_outcome_from_alert outcomes alertId s1)
          alertId s2).countP fun o => o.alert_id == alertId) = 1) := by
  intro outcomes alertId s1 s2
  have hnoop := create_outcome_noop (create_outcome_from_alert outcomes alertId s1)
    alertId s2 (create_outcome_tracks outcomes alertId s1)
  refine ⟨hnoop, ?_⟩
  intro h0
  rw [hnoop]
  unfold create_outcome_from_alert
  split
  · next hany =>
    rw [List.countP_eq_zero] at h0
    rw [List.any_eq_true] at hany
    obtain ⟨o, ho, hoid⟩ := hany
    exact absurd hoid (h0 o ho)
  · rw [List.countP_append, h0]
    simp [List.countP_cons]

/-- Witness for claim C8: from an empty outcome table, two invocations for
alert id 5 leave exactly one record. -/
theorem settlement_idempotent_witness :
    ((create_outcome_from_alert (create_outcome_from_alert [] 5 1) 5 2).countP
      fun o => o.alert_id == 5) = 1 :=
  (settlement_idempotent [] 5 1 2).2 (by decide)

/-- Claim C7, counterexample: for the even-length result list [1, 2] the
aggregator's median is 2, the upper-middle element of the sorted list, not
the lower-middle element 1 the claim states. -/
theorem median_even_counterexample :
    calc_median [1, 2] = 2 ∧ (2 : ℚ) ≠ 1 := by
  have h : ([1, 2] : List ℚ).mergeSort (fun a b => decide (a ≤ b)) = [1, 2] := by
    apply List.eq_of_perm_of_sorted (r := (· ≤ ·))
      ((List.mergeSort_perm _ _).trans (by decide))
    · exact List.sorted_mergeSort' _
    · decide
  refine ⟨by simp [calc_median, h], by norm_num⟩

/-- Claim C7, amended: the aggregator's median of a non-empty result list is
the element at index length / 2 (integer division) of the sorted list — the
middle element for odd lengths, the upper-middle element for even lengths,
with no interpolation; for results [+5, -2, +1] the mean is 4/3, the
fraction of positive results is 2/3 (the code reports it multiplied by 100),
and the median is +1. -/
theorem aggregator_stats_spec :
    ∀ xs : List ℚ, xs ≠ [] →
    ((∃ s : List ℚ, xs.Perm s ∧ s.Sorted (· ≤ ·) ∧
        calc_median xs = s.getD (s.length / 2) 0) ∧
      calc_mean [5, -2, 1] = 4 / 3 ∧
      calc_win_rate [5, -2, 1] = 2 / 3 * 100 ∧
      calc_median [5, -2, 1] = 1 ∧
      calc_median [1, 2] = 2) := by
  intro xs hxs
  have hperm := List.mergeSort_perm xs (fun a b => decide (a ≤ b))
  have hne : xs.mergeSort (fun a b => decide (a ≤ b)) ≠ [] := by
    intro h
    exact hxs (List.Perm.eq_nil ((h ▸ hperm).symm))
  have h521 : ([5, -2, 1] : List ℚ).mergeSort (fun a b => decide (a ≤ b)) =
      [-2, 1, 5] := by
    apply List.eq_of_perm_of_sorted (r := (· ≤ ·))
      ((List.mergeSort_perm _ _).trans (by decide))
    · exact List.sorted_mergeSort' _
    · decide
  have h12 : ([1, 2] : List ℚ).mergeSort (fun a b => decide (a ≤ b)) = [1, 2] := by
    apply List.eq_of_perm_of_sorted (r := (· ≤ ·))
      ((List.mergeSort_perm _ _).trans (by decide))
    · exact List.sorted_mergeSort' _
    · decide
  have hmean : calc_mean [5, -2, 1] = 4 / 3 := by
    unfold calc_mean
    rw [if_neg (by simp)]
    norm_num
  have hwr : calc_win_rate [5, -2, 1] = 2 / 3 * 100 := by
    unfold calc_win_rate
    rw [if_neg (by simp)]
    norm_num [List.filter_cons]
  refine ⟨⟨xs.mergeSort (fun a b => decide (a ≤ b)), hperm.symm,
      List.sorted_mergeSort' xs, ?_⟩, hmean, hwr,
      by simp [calc_median, h521], by simp [calc_median, h12]⟩
  simp [calc_median, hne]

/-- Witness for the amended claim C7 at the non-empty list [5, -2, 1]. -/
theorem aggregator_stats_spec_witness :
    calc_mean [5, -2, 1] = 4 / 3 :=
  ((aggregator_stats_spec [5, -2, 1] (by decide)).2).1

/-- Helper: one step of the simulator walk equals the spec-side state update
followed by the spec-side ordered exit rule list. -/
theorem simulate_go_step (entry : ℚ) (is_long : Bool) (i : Nat) (mg md : ℚ)
    (ta : Bool) (tl lc : ℚ) (s : Sample) (rest : List Sample) :
    simulate_go entry is_long i mg md ta tl lc (s :: rest) =
      (let st := spec_update_state ⟨mg, md, ta, tl⟩ (gain_high entry is_long s)
        (gain_low entry is_long s)
      match spec_exit_check (gain_high entry is_long s) (gain_low entry is_long s)
          (gain_close entry is_long s) st.trailing_active st.trailing_level
          ((i + 1) * 5) with
      | some (r, reason) => ⟨r, reason, st.max_gain, st.max_drawdown, (i + 1) * 5⟩
      | none => simulate_go entry is_long (i + 1) st.max_gain st.max_drawdown
          st.trailing_active st.trailing_level s.close rest) := by
  simp only [simulate_go, spec_update_state, spec_exit_check]
  cases ta <;>
    by_cases h3 : max mg (gain_high entry is_long s) ≥ TRAILING_STOP_TRIGGER <;>
      simp [h3] <;> split_ifs <;> simp_all

/-- Helper: the spec-side state update ratchets max_gain with the gain at
the favorable extreme. -/
theorem spec_update_state_max_gain (st : SimState) (gh gl : ℚ) :
    (spec_update_state st gh gl).max_gain = max st.max_gain gh := by
  simp only [spec_update_state]
  split_ifs <;> rfl

/-- Helper: the spec-side state update ratchets max_drawdown with the gain
at the adverse extreme. -/
theorem spec_update_state_max_drawdown (st : SimState) (gh gl : ℚ) :
    (spec_update_state st gh gl).max_drawdown = min st.max_drawdown gl := by
  simp only [spec_update_state]
  split_ifs <;> rfl

/-- Claim C3: at every sample the simulator settles via the spec's ordered
exit rule list evaluated against the sample's extremes after the spec's
state update (take-profit at exactly TAKE_PROFIT_PCT independent of the
close, then stop-loss at exactly STOP_LOSS_PCT, then trailing stop at the
trailing level, then timeout at the close's gain), recursing when no rule
fires; an exhausted path settles as end_of_data at the last close. -/
theorem simulate_exit_rules_spec :
    ∀ (entry : ℚ) (is_long : Bool) (i : Nat) (mg md : ℚ) (ta : Bool) (tl lc : ℚ)
      (s : Sample) (rest : List Sample),
    simulate_go entry is_long i mg md ta tl lc [] =
      ⟨if is_long then (lc - entry) / entry * 100 else -((lc - entry) / entry * 100),
        .end_of_data, mg, md, i * 5⟩ ∧
    simulate_go entry is_long i mg md ta tl lc (s :: rest) =
      (let st := spec_update_state ⟨mg, md, ta, tl⟩ (gain_high entry is_long s)
        (gain_low entry is_long s)
      match spec_exit_check (gain_high entry is_long s) (gain_low entry is_long s)
          (gain_close entry is_long s) st.trailing_active st.trailing_level
          ((i + 1) * 5) with
      | some (r, reason) => ⟨r, reason, st.max_gain, st.max_drawdown, (i + 1) * 5⟩
      | none => simulate_go entry is_long (i + 1) st.max_gain st.max_drawdown
          st.trailing_active st.trailing_level s.close rest) := by
  intro entry is_long i mg md ta tl lc s rest
  exact ⟨rfl, simulate_go_step entry is_long i mg md ta tl lc s rest⟩

/-- Helper invariant for the simulator walk: from a non-negative max_gain
and a non-positive max_drawdown, the result's max_gain stays non-negative,
its max_drawdown non-positive, and its hold_minutes is 5 times a sample
count between i (exactly i only for an empty path) and i plus the path
length. -/
theorem simulate_go_state_bounds (entry : ℚ) (is_long : Bool) :
    ∀ (path : List Sample) (i : Nat) (mg md : ℚ) (ta : Bool) (tl lc : ℚ),
    0 ≤ mg → md ≤ 0 →
    0 ≤ (simulate_go entry is_long i mg md ta tl lc path).max_gain ∧
    (simulate_go entry is_long i mg md ta tl lc path).max_drawdown ≤ 0 ∧
    ∃ k, i ≤ k ∧ k ≤ i + path.length ∧
      (simulate_go entry is_long i mg md ta tl lc path).hold_minutes = 5 * k ∧
      (path ≠ [] → i + 1 ≤ k) := by
  intro path
  induction path with
  | nil =>
    intro i mg md ta tl lc hmg hmd
    exact ⟨hmg, hmd, i, le_refl _, by simp, by simp [simulate_go, Nat.mul_comm],
      by simp⟩
  | cons s rest ih =>
    intro i mg md ta tl lc hmg hmd
    have hmg1 : 0 ≤ (spec_update_state ⟨mg, md, ta, tl⟩ (gain_high entry is_long s)
        (gain_low entry is_long s)).max_gain := by
      rw [spec_update_state_max_gain]
      exact le_trans hmg (le_max_left _ _)
    have hmd1 : (spec_update_state ⟨mg, md, ta, tl⟩ (gain_high entry is_long s)
        (gain_low entry is_long s)).max_drawdown ≤ 0 := by
      rw [spec_update_state_max_drawdown]
      exact le_trans (min_le_left _ _) hmd
    rw [simulate_go_step]
    cases hexit : spec_exit_check (gain_high entry is_long s)
        (gain_low entry is_long s) (gain_close entry is_long s)
        (spec_update_state ⟨mg, md, ta, tl⟩ (gain_high entry is_long s)
          (gain_low entry is_long s)).trailing_active
        (spec_update_state ⟨mg, md, ta, tl⟩ (gain_high entry is_long s)
          (gain_low entry is_long s)).trailing_level ((i + 1) * 5) with
    | none =>
      simp only [hexit]
      obtain ⟨ha, hb, k, hk1, hk2, hk3, hk4⟩ :=
        ih (i + 1)
          (spec_update_state ⟨mg, md, ta, tl⟩ (gain_high entry is_long s)
            (gain_low entry is_long s)).max_gain
          (spec_update_state ⟨mg, md, ta, tl⟩ (gain_high entry is_long s)
            (gain_low entry is_long s)).max_drawdown
          (spec_update_state ⟨mg, md, ta, tl⟩ (gain_high entry is_long s)
            (gain_low entry is_long s)).trailing_active
          (spec_update_state ⟨mg, md, ta, tl⟩ (gain_high entry is_long s)
            (gain_low entry is_long s)).trailing_level
          s.close hmg1 hmd1
      exact ⟨ha, hb, k, by omega, by simp only [List.length_cons]; omega, hk3,
        fun _ => by omega⟩
    | some p =>
      obtain ⟨r, reason⟩ := p
      simp only [hexit]
      exact ⟨hmg1, hmd1, i + 1, by omega,
        by simp only [List.length_cons]; omega, by omega, fun _ => by omega⟩

/-- Claim C10: every settlement the simulator returns has a non-negative
max_gain, a non-positive max_drawdown, and a hold_minutes equal to five
times the number of samples consumed — a positive count bounded by the path
length. -/
theorem simulate_invariants :
    ∀ (entry : ℚ) (is_long : Bool) (path : List Sample) (r : TradeResult),
    simulate_trade entry is_long path = some r →
    0 ≤ r.max_gain ∧ r.max_drawdown ≤ 0 ∧
      ∃ k, 1 ≤ k ∧ k ≤ path.length ∧ r.hold_minutes = 5 * k := by
  intro entry is_long path r h
  unfold simulate_trade at h
  split at h
  · cases h
  · next hne =>
    have hr : r = simulate_go entry is_long 0 0 0 false STOP_LOSS_PCT entry path :=
      (Option.some.inj h).symm
    subst hr
    obtain ⟨ha, hb, k, _, hk2, hk3, hk4⟩ :=
      simulate_go_state_bounds entry is_long path 0 0 0 false STOP_LOSS_PCT entry
        (le_refl 0) (le_refl 0)
    have hpne : path ≠ [] := by
      intro hnil
      rw [hnil] at hne
      exact hne rfl
    have h1k : 0 + 1 ≤ k := hk4 hpne
    exact ⟨ha, hb, k, by omega, by omega, hk3⟩

/-- Witness for claim C10: a long entry at 100 on a sample with high 104
settles take_profit with max_gain 4, max_drawdown 0, hold 5 minutes. -/
theorem simulate_invariants_witness :
    0 ≤ (⟨3, .take_profit, 4, 0, 5⟩ : TradeResult).max_gain ∧
      (⟨3, .take_profit, 4, 0, 5⟩ : TradeResult).max_drawdown ≤ 0 ∧
      ∃ k, 1 ≤ k ∧ k ≤ ([⟨104, 100, 101⟩] : List Sample).length ∧
        (⟨3, .take_profit, 4, 0, 5⟩ : TradeResult).hold_minutes = 5 * k :=
  simulate_invariants 100 true [⟨104, 100, 101⟩] ⟨3, .take_profit, 4, 0, 5⟩
    (by norm_num [simulate_trade, simulate_go, gain_high, gain_low, gain_close,
      TAKE_PROFIT_PCT, STOP_LOSS_PCT, TRAILING_STOP_TRIGGER, TRAILING_GAP,
      MAX_HOLD_HOURS])

end PricingFetcher

